import Mathlib

/-!
Shallow embedding of `milabench/instruments.py` (the voir instruments of
milabench) and proofs about the properties its specification states.

Numeric modelling conventions:
* `time.time_ns()` timestamps are integers (nanoseconds), modelled as `Int`.
* Python float arithmetic on those values is modelled exactly with `ℚ`.
* A Python function that can raise is modelled with `Except String`;
  a subscriber that returns `None` to mean "emit nothing" returns `Option`.
The stream combinators (`pairwise`, `buffer_with_time`, `skip`, `average(scan)`,
`throttle`, `first`, `last`) live in the external `giving`/`voir` libraries,
not in this repository's sources; where a claim depends on their behaviour
they are modelled from the specification's description of the operator.
-/

namespace Milabench

/-! ## train_rate (instruments.py lines 114-152) -/

/-- One element of the `times` stream of `train_rate` after
`kmap(batch_size=...)`, `augment(time=...)`, `keep("time", "batch_size")`:
a record holding `time = time.time_ns()` and `batch_size = len(batch)`. -/
structure TSample where
  time : Int
  batch_size : Nat
deriving DecidableEq, Repr

/-- The subscriber body of `train_rate` (lines 138-152), applied to the list
`elems` of consecutive pairs delivered by one `buffer_with_time(1.0)` window.
`sync` is the optional CUDA synchronization hook: `none` when `use_cuda`
defaulted to `False`, `some c` when synchronizing cost `c` nanoseconds.
Returns `some rate` when `ov.give(train_rate=n / t)` runs, `none` otherwise. -/
def trainRateGive (sync : Option Int) (elems : List (TSample × TSample)) :
    Option ℚ :=
  let t : Int :=
    (match sync with
     | none => 0
     | some c => c) + (elems.map (fun e => e.2.time - e.1.time)).sum
  let n : Nat := (elems.map (fun e => e.1.batch_size)).sum
  let tsec : ℚ := (t : ℚ) / 1000000000
  if n ≠ 0 ∧ tsec ≠ 0 then some ((n : ℚ) / tsec) else none

/-! ## stop (instruments.py lines 92-111) -/

/-- The closure state of the `stop` instrument: the `called` flag guarding
`ov.stop`, plus a count of how many times `ov.stop` was actually invoked. -/
structure StopState where
  called : Bool
  fired : Nat
deriving DecidableEq, Repr

/-- `_stop` (lines 96-102): invoke `ov.stop(value)` only when `called` is
still false, then set the flag. -/
def stopCallback (s : StopState) : StopState :=
  if s.called then s else { called := true, fired := s.fired + 1 }

/-- Modelled from the spec: `skip(N)` is an index-based operator dropping the
first `N` events of the subscription and passing every later one through. -/
def skipStream (n : Nat) (xs : List α) : List α := xs.drop n

/-- The `stop` instrument run over a finite prefix `events` of the
`train_rate` event stream (lines 105-111): if the `stop` parameter is 0 the
body after `if stop:` never runs; otherwise `_stop` is subscribed to
`steps.skip(stop)`. Returns the final closure state. -/
def stopRun (stopParam : Nat) (events : List Unit) : StopState :=
  if stopParam = 0 then ⟨false, 0⟩
  else (skipStream stopParam events).foldl (fun s _ => stopCallback s) ⟨false, 0⟩

/-! ## Python payload values for span-based rates -/

/-- The payload values `_timing` can see under `results["batch"]`:
Python lists, tuples, and otherwise opaque sized objects (tensors, arrays)
of which only `len` matters. -/
inductive PyVal where
  | pylist (xs : List PyVal)
  | pytuple (xs : List PyVal)
  | pytensor (n : Nat)

/-- Python `len` on the payload values. -/
def PyVal.len : PyVal → Nat
  | .pylist xs => xs.length
  | .pytuple xs => xs.length
  | .pytensor n => n

/-- `loading_rate._timing` unwrapping (lines 166-167):
`if isinstance(data, (list, tuple)): data = data[0]`.
`none` models the `IndexError` that `data[0]` raises on an empty sequence. -/
def loadingUnwrap : PyVal → Option PyVal
  | .pylist xs => xs.head?
  | .pytuple xs => xs.head?
  | .pytensor n => some (.pytensor n)

/-- `compute_rate._timing` unwrapping (lines 208-209):
`if isinstance(data, list): data = data[0]` — tuples are NOT unwrapped. -/
def computeUnwrap : PyVal → Option PyVal
  | .pylist xs => xs.head?
  | .pytuple xs => some (.pytuple xs)
  | .pytensor n => some (.pytensor n)

/-- One measured enter/exit span of a probe: `t0 = time.time_ns()` at enter,
`t1 = time.time_ns()` at exit, and `batch = results["batch"]` when the
`batch` key is present in the exit results. -/
structure Span where
  t0 : Int
  t1 : Int
  batch : Option PyVal

/-- `(t1 - t0) / 1000000000`, the elapsed seconds of a span. -/
def Span.seconds (s : Span) : ℚ := (((s.t1 - s.t0) : Int) : ℚ) / 1000000000

/-- `loading_rate._timing` (lines 159-170): when the exit results carry a
`batch`, unwrap list/tuple payloads to their first element and return
`len(data) / seconds`; without a `batch` key return `None` (emit nothing).
`Except` carries the exceptions the Python body can raise. -/
def loadingTiming (s : Span) : Except String (Option ℚ) :=
  match s.batch with
  | none => .ok none
  | some data =>
    match loadingUnwrap data with
    | none => .error "IndexError"
    | some d =>
      if s.seconds = 0 then .error "ZeroDivisionError"
      else .ok (some ((d.len : ℚ) / s.seconds))

/-- `compute_rate._timing` (lines 201-212): identical to `loadingTiming`
except that only list payloads are unwrapped to their first element. -/
def computeTiming (s : Span) : Except String (Option ℚ) :=
  match s.batch with
  | none => .ok none
  | some data =>
    match computeUnwrap data with
    | none => .error "IndexError"
    | some d =>
      if s.seconds = 0 then .error "ZeroDivisionError"
      else .ok (some ((d.len : ℚ) / s.seconds))

/-! ## The smoothing pipeline `.average(scan=5).throttle(1)`

The operators live in the external `giving` library; they are modelled from
the spec. A stream element is `(timestamp in seconds, value)`. -/

/-- The last `w` elements of a list (the sliding window contents). -/
def lastWindow (w : Nat) (xs : List ℚ) : List ℚ := xs.drop (xs.length - w)

/-- Arithmetic mean of a list of rationals. -/
def listMean (xs : List ℚ) : ℚ := xs.sum / (xs.length : ℚ)

/-- Modelled from the spec: `scanning-average(window=w)` keeps the last `w`
numeric samples and emits, after each incoming sample, the arithmetic mean
over however many of the last `w` samples exist. Each emission keeps the
timestamp of the sample that triggered it. -/
def scanAverageTimed (w : Nat) (xs : List (ℚ × ℚ)) : List (ℚ × ℚ) :=
  xs.enum.map fun p =>
    (p.2.1, listMean (lastWindow w ((xs.take (p.1 + 1)).map Prod.snd)))

/-- Helper for `throttleTimed`: `lastEmit` is the timestamp of the most
recently passed event, if any. -/
def throttleGo (interval : ℚ) : Option ℚ → List (ℚ × ℚ) → List (ℚ × ℚ)
  | _, [] => []
  | none, (t, v) :: rest => (t, v) :: throttleGo interval (some t) rest
  | some last, (t, v) :: rest =>
    if interval ≤ t - last then (t, v) :: throttleGo interval (some t) rest
    else throttleGo interval (some last) rest

/-- Modelled from the spec: `throttle(interval)` passes at most one event per
`interval`, dropping the intermediate events rather than buffering them. -/
def throttleTimed (interval : ℚ) (xs : List (ℚ × ℚ)) : List (ℚ × ℚ) :=
  throttleGo interval none xs

/-- The per-span emissions of `loading_rate`'s pipeline before smoothing:
`prb.wmap(_timing).filter(lambda xs: xs is not None)` over a list of measured
spans, timestamping each rate with its span's exit time (in seconds). An
exception raised inside `_timing` propagates. -/
def loadingEmitted : List Span → Except String (List (ℚ × ℚ))
  | [] => .ok []
  | s :: rest =>
    match loadingTiming s with
    | .error e => .error e
    | .ok none => loadingEmitted rest
    | .ok (some r) =>
      (loadingEmitted rest).map (fun tail => ((s.t1 : ℚ) / 1000000000, r) :: tail)

/-- Per-span emissions of `compute_rate`'s pipeline before smoothing
(`ov.given.wmap("compute_start", _timing)`, `None` results filtered out by
`average`'s numeric aggregation). -/
def computeEmitted : List Span → Except String (List (ℚ × ℚ))
  | [] => .ok []
  | s :: rest =>
    match computeTiming s with
    | .error e => .error e
    | .ok none => computeEmitted rest
    | .ok (some r) =>
      (computeEmitted rest).map (fun tail => ((s.t1 : ℚ) / 1000000000, r) :: tail)

/-- The published `loading_rate` stream (lines 187-194): per-span rates,
then `.average(scan=5)`, then `.throttle(1)`. -/
def loadingPublished (spans : List Span) : Except String (List (ℚ × ℚ)) :=
  (loadingEmitted spans).map (fun rs => throttleTimed 1 (scanAverageTimed 5 rs))

/-- The published `compute_rate` stream (lines 214-220). -/
def computePublished (spans : List Span) : Except String (List (ℚ × ℚ)) :=
  (computeEmitted spans).map (fun rs => throttleTimed 1 (scanAverageTimed 5 rs))

/-- A span whose exit happens strictly after its enter and whose batch
payload, when present, is not an empty list/tuple (so `data[0]` succeeds). -/
def spanOk (s : Span) : Bool :=
  decide (s.t0 < s.t1) && s.batch.all (fun d => (loadingUnwrap d).isSome)

/-- The per-span rate exactly as the specification words it: when the exit
payload carries a batch-like value (or the first element of a sequence of
such, per the instrument's unwrapping), the rate is
`len(payload) / elapsed-seconds`; otherwise nothing. -/
def claimSpanRate (unwrap : PyVal → Option PyVal) (s : Span) :
    Option (ℚ × ℚ) :=
  s.batch.bind fun d =>
    (unwrap d).map fun p => ((s.t1 : ℚ) / 1000000000, (p.len : ℚ) / s.seconds)

/-! ## GPUMonitor (instruments.py lines 223-247) -/

/-- `GPUMonitor.run` (lines 230-235) driven by the successive outcomes of
`GPUtil.getGPUs()` until the `stopped` flag is observed: `some sample` is a
successful acquisition, `none` a raised exception. The loop body
`self.ov.give(gpudata=...)` has no exception handler, so a raise propagates
out of `run` and terminates the thread. Returns the list of published
samples and whether the thread died from an exception. -/
def gpuMonitorRun {α : Type} : List (Option α) → List α × Bool
  | [] => ([], false)
  | none :: _ => ([], true)
  | some s :: rest =>
    let r := gpuMonitorRun rest
    (s :: r.1, r.2)

/-- The delay argument of `GPUMonitor(ov, 100)` in `profile_gpu` (line 244). -/
def gpuMonitorDefaultDelay : Nat := 100

/-- Python's `time.sleep` interprets its argument in seconds; this converts a
sleep argument to the milliseconds actually waited. -/
def sleepArgToMilliseconds (secs : Nat) : Nat := secs * 1000

/-- The interval in milliseconds between successive polls of the monitor
started by `profile_gpu`: `time.sleep(self.delay)` with the default delay. -/
def monitorPollIntervalMs : Nat := sleepArgToMilliseconds gpuMonitorDefaultDelay

/-! ## Interleaving model of `GPUMonitor.stop` vs the polling loop (C7) -/

/-- Program counter of the monitor thread inside its `while` loop. -/
inductive MonPC where
  | check
  | publish
  | sleep
  | done
deriving DecidableEq, Repr

/-- Joint state of the monitor thread and the caller of `stop()`. -/
structure MonState where
  stopped : Bool
  pc : MonPC
  published : Nat
  stopReturned : Bool
  publishedAfterStop : Nat
deriving DecidableEq, Repr

/-- Initial state: monitor at the top of its loop, `stopped = False`,
`stop()` not yet called. -/
def monInit : MonState :=
  { stopped := false, pc := .check, published := 0, stopReturned := false,
    publishedAfterStop := 0 }

/-- One step of the monitor thread: test the flag, publish a sample
(`self.ov.give(gpudata=...)`), or sleep, per `run`'s loop (lines 233-235). -/
def stepMonitor (st : MonState) : MonState :=
  match st.pc with
  | .check => if st.stopped then { st with pc := .done } else { st with pc := .publish }
  | .publish =>
    { st with
        pc := .sleep
        published := st.published + 1
        publishedAfterStop :=
          st.publishedAfterStop + (if st.stopReturned then 1 else 0) }
  | .sleep => { st with pc := .check }
  | .done => st

/-- One step of the caller: the whole body of `GPUMonitor.stop` (lines
237-238) — set `self.stopped = True` and return immediately. There is no
join of the polling thread. -/
def stepStop (st : MonState) : MonState :=
  if st.stopReturned then st
  else { st with stopped := true, stopReturned := true }

/-- Thread identifiers for an interleaving schedule. -/
inductive Tid where
  | monitor
  | main
deriving DecidableEq, Repr

/-- Execute an interleaving of the monitor loop and the `stop()` caller. -/
def runSchedule (sched : List Tid) : MonState :=
  sched.foldl
    (fun st tid =>
      match tid with
      | .monitor => stepMonitor st
      | .main => stepStop st)
    monInit

/-! ## profile (instruments.py lines 334-360) -/

/-- What the body of `profile` does with a given `ov.options.profile`. -/
inductive ProfileOutcome where
  | inactive
  | installsTorch
  | installsDeepspeed
  | raisesNotImplemented (msg : String)
deriving DecidableEq, Repr

/-- The dispatch at the top of `profile` (lines 341-349): `None` returns
(inactive), `"torch"` and `"deepspeed"` select a profiler, anything else —
including the empty string — raises `NotImplementedError`. -/
def profileDispatch (profile_name : Option String) : ProfileOutcome :=
  match profile_name with
  | none => .inactive
  | some name =>
    if name = "torch" then .installsTorch
    else if name = "deepspeed" then .installsDeepspeed
    else .raisesNotImplemented ("Unknown profiler: " ++ name)

/-- The declared default of the `--profile` parameter (lines 334-339):
`type=str, default=""`, so `ov.options.profile` is the empty string when the
flag is not given. -/
def profileDefault : Option String := some ""

/-! ## verify (instruments.py lines 250-281) -/

/-- The loss checks of `verify` (lines 258-269) over the finite history of
the `loss` channel: `first_loss | last_loss` merged, `pairwise`, then
`starmap(lambda fl, ll: ll < fl)` gives `verify.loss_decreases`, and
`last_loss.map(lambda x: x < 1)` gives `verify.loss_below_threshold`.
On an empty channel `first()`/`last()` emit nothing, so neither check is
published. -/
def verifyLoss (losses : List ℚ) : Option (Bool × Bool) :=
  match losses with
  | [] => none
  | h :: t =>
    let final := (h :: t).getLast (List.cons_ne_nil h t)
    some (decide (final < h), decide (final < 1))

/-! ## loading_rate loader classification (instruments.py lines 174-186) -/

/-- The duck-typed shape of a `loader` object as the instrument tests it:
whether `loader.__iter__` is a generator function, and whether
`type(iter(loader))` has a `next` attribute. -/
structure LoaderShape where
  iterIsGeneratorFunction : Bool
  iterTypeHasNext : Bool
deriving DecidableEq, Repr

/-- Result of the loader subscriber: which probe was installed, or the inert
outcome (error printed to `sys.stderr`, `return` with no probe). The
function is total: this code path raises no exception to the host. -/
inductive LoaderSetup where
  | probeGenerator
  | probeNext
  | inertLogged
deriving DecidableEq, Repr

/-- Whether the setup installed a probe (and hence built the publishing
pipeline). -/
def LoaderSetup.installsProbe : LoaderSetup → Bool
  | .probeGenerator => true
  | .probeNext => true
  | .inertLogged => false

/-- Whether the setup printed the `Error: cannot instrument loader` line. -/
def LoaderSetup.logsError : LoaderSetup → Bool
  | .probeGenerator => false
  | .probeNext => false
  | .inertLogged => true

/-- The `loader` subscriber of `loading_rate` (lines 174-186). -/
def loadingRateSetup (shape : LoaderShape) : LoaderSetup :=
  if shape.iterIsGeneratorFunction then .probeGenerator
  else if shape.iterTypeHasNext then .probeNext
  else .inertLogged

/-! # Theorems -/

theorem stopCallback_foldl_called (xs : List Unit) (k : Nat) :
    xs.foldl (fun s _ => stopCallback s) ⟨true, k⟩ = ⟨true, k⟩ := by
  induction xs with
  | nil => rfl
  | cons x xs ih => simpa [stopCallback] using ih

theorem stopCallback_foldl_fresh (xs : List Unit) :
    xs.foldl (fun s _ => stopCallback s) ⟨false, 0⟩ =
      if xs = [] then ⟨false, 0⟩ else ⟨true, 1⟩ := by
  cases xs with
  | nil => rfl
  | cons x xs =>
    have h := stopCallback_foldl_called xs 1
    simpa [stopCallback] using h

/-- Claim C1: within one `buffer_with_time(1.0)` window (with no CUDA
synchronization hook, the default), the published train rate equals the sum
of the first-of-pair batch sizes divided by the sum of the pairwise time
deltas converted to seconds, and nothing is published when either the total
size or the total elapsed time is zero. -/
theorem train_rate_window_formula (elems : List (TSample × TSample)) :
    ((elems.map fun e => e.1.batch_size).sum ≠ 0 →
      (elems.map fun e => e.2.time - e.1.time).sum ≠ 0 →
      trainRateGive none elems =
        some ((((elems.map fun e => e.1.batch_size).sum : Nat) : ℚ) /
          ((((elems.map fun e => e.2.time - e.1.time).sum : Int) : ℚ) /
            1000000000)))
    ∧ ((elems.map fun e => e.1.batch_size).sum = 0 ∨
        (elems.map fun e => e.2.time - e.1.time).sum = 0 →
        trainRateGive none elems = none) := by
  have hmil : (1000000000 : ℚ) ≠ 0 := by norm_num
  constructor
  · intro hn ht
    have htq :
        ((((elems.map fun e => e.2.time - e.1.time).sum : Int) : ℚ) /
          1000000000) ≠ 0 := by
      rw [div_ne_zero_iff]
      exact ⟨by exact_mod_cast ht, hmil⟩
    simp only [trainRateGive, zero_add]
    rw [if_pos ⟨hn, htq⟩]
  · intro h
    simp only [trainRateGive, zero_add]
    rw [if_neg]
    rintro ⟨hn, ht⟩
    rcases h with h | h
    · exact hn h
    · apply ht
      rw [h]
      simp

/-- Witness for C1 at a concrete window: two pairs, each spanning half a
second with first-of-pair batch size 4, give a rate of 8 items per second. -/
theorem train_rate_window_formula_witness :
    trainRateGive none
      [(⟨0, 4⟩, ⟨500000000, 1⟩), (⟨500000000, 4⟩, ⟨1000000000, 1⟩)] =
      some 8 := by
  have h :=
    (train_rate_window_formula
      [(⟨0, 4⟩, ⟨500000000, 1⟩), (⟨500000000, 4⟩, ⟨1000000000, 1⟩)]).1
      (by decide) (by decide)
  rw [h]
  norm_num

/-- Claim C2, counterexample: with parameter 3 and a stream of exactly three
`train_rate` events, the 3rd occurrence has been observed yet the code has
issued no stop signal — `skip(3)` passes nothing on, so the signal does not
fire upon the Nth occurrence as claimed. -/
theorem stop_nth_occurrence_counterexample :
    (stopRun 3 [(), (), ()]).fired = 0 ∧ (stopRun 3 [(), (), ()]).fired ≠ 1 := by
  decide

/-- Claim C2, amended: for every positive parameter N, the stop instrument
skips the first N `train_rate` events and issues its stop signal upon the
(N+1)-th occurrence — exactly one signal when the stream has more than N
events, none otherwise — and it never fires twice even if the triggering
event recurs after the signal. -/
theorem stop_fires_once_after_skip (n : Nat) (hn : 0 < n) (events : List Unit) :
    (stopRun n events).fired = (if n < events.length then 1 else 0) ∧
    (stopRun n events).fired ≤ 1 := by
  have hne : n ≠ 0 := Nat.pos_iff_ne_zero.mp hn
  have hrun : stopRun n events =
      if skipStream n events = [] then ⟨false, 0⟩ else ⟨true, 1⟩ := by
    rw [stopRun, if_neg hne, stopCallback_foldl_fresh]
  have hnil : skipStream n events = [] ↔ events.length ≤ n := by
    simp [skipStream]
  constructor
  · by_cases hlt : n < events.length
    · rw [hrun, if_neg, if_pos hlt]
      intro hd
      exact absurd (hnil.mp hd) (Nat.not_le.mpr hlt)
    · rw [hrun, if_pos, if_neg hlt]
      exact hnil.mpr (Nat.not_lt.mp hlt)
  · rw [hrun]
    by_cases hd : skipStream n events = []
    · rw [if_pos hd]
      exact Nat.zero_le 1
    · rw [if_neg hd]

/-- Witness for the amended C2: parameter 3 over four events fires exactly
once (on the 4th event) and never twice. -/
theorem stop_fires_once_after_skip_witness :
    (stopRun 3 [(), (), (), ()]).fired = 1 ∧
    (stopRun 3 [(), (), (), ()]).fired ≤ 1 := by
  have h := stop_fires_once_after_skip 3 (by norm_num) [(), (), (), ()]
  simpa using h

/-- Claim C3: evaluating `GPUMonitor.run` on five failing polls followed by a
successful one. The loop has no exception handler, so the first raise
terminates the thread: nothing is ever published and the thread dies, instead
of skipping the failed polls and publishing on the 6th. The second conjunct
shows the failure-free loop publishing every sample. -/
theorem gpu_monitor_dies_on_poll_failure :
    gpuMonitorRun [none, none, none, none, none, some 42] = (([] : List Nat), true) ∧
    gpuMonitorRun [some (1 : Nat), some 2] = ([1, 2], false) :=
  ⟨rfl, rfl⟩

/-- Claim C4: with the `--profile` parameter at its declared default `""`,
the dispatch at the top of `profile` reaches the `else` branch and raises
`NotImplementedError` instead of being inactive. -/
theorem profile_default_raises :
    profileDispatch profileDefault =
      .raisesNotImplemented "Unknown profiler: " ∧
    profileDispatch profileDefault ≠ .inactive :=
  ⟨rfl, by decide⟩

/-- Claim C5: `verify` publishes `verify.loss_decreases = (final < initial)`
and `verify.loss_below_threshold = (final < 1)` with strict comparisons; on
losses `[2, 3/2, 4/5]` both are true, and on `[1, 1]` `loss_decreases` is
false. -/
theorem verify_loss_outputs :
    (∀ (losses : List ℚ) (init fin : ℚ),
        losses.head? = some init → losses.getLast? = some fin →
        verifyLoss losses = some (decide (fin < init), decide (fin < 1))) ∧
    verifyLoss [2, 3/2, 4/5] = some (true, true) ∧
    verifyLoss [1, 1] = some (false, false) := by
  refine ⟨?_, ?_, ?_⟩
  · intro losses init fin hh hl
    cases losses with
    | nil => cases hh
    | cons h t =>
      have hinit : init = h := by
        simpa using hh.symm
      have hlast := List.getLast?_eq_getLast_of_ne_nil (List.cons_ne_nil h t)
      rw [hlast] at hl
      have hfin : fin = (h :: t).getLast (List.cons_ne_nil h t) :=
        (Option.some.inj hl).symm
      rw [verifyLoss, hinit, hfin]
  · norm_num [verifyLoss, List.getLast]
  · norm_num [verifyLoss, List.getLast]

/-- Witness for C5 at the concrete channel `[2, 3/2, 4/5]`: initial `2`,
final `4/5`. -/
theorem verify_loss_outputs_witness :
    verifyLoss [2, 3/2, 4/5] =
      some (decide ((4 : ℚ)/5 < 2), decide ((4 : ℚ)/5 < 1)) :=
  verify_loss_outputs.1 [2, 3/2, 4/5] 2 (4/5) rfl rfl

theorem seconds_ne_zero_of_lt {s : Span} (h : s.t0 < s.t1) : s.seconds ≠ 0 := by
  have hpos : (0 : ℚ) < ((s.t1 - s.t0 : Int) : ℚ) := by
    exact_mod_cast Int.sub_pos.mpr h
  have : (0 : ℚ) < s.seconds := by
    rw [Span.seconds]
    positivity
  exact ne_of_gt this

theorem computeUnwrap_isSome_of (d : PyVal)
    (h : (loadingUnwrap d).isSome = true) : (computeUnwrap d).isSome = true := by
  cases d with
  | pylist xs => simpa [loadingUnwrap, computeUnwrap] using h
  | pytuple xs => simp [computeUnwrap]
  | pytensor n => simp [computeUnwrap]

theorem loadingEmitted_eq (spans : List Span)
    (h : ∀ s ∈ spans, spanOk s = true) :
    loadingEmitted spans =
      .ok (spans.filterMap (claimSpanRate loadingUnwrap)) := by
  induction spans with
  | nil => rfl
  | cons s rest ih =>
    have hs : spanOk s = true := h s (List.mem_cons_self s rest)
    have hrest := ih (fun x hx => h x (List.mem_cons_of_mem s hx))
    rw [spanOk, Bool.and_eq_true] at hs
    have hlt : s.t0 < s.t1 := of_decide_eq_true hs.1
    have hsec := seconds_ne_zero_of_lt hlt
    cases hb : s.batch with
    | none =>
      rw [loadingEmitted, loadingTiming, hb, hrest]
      simp [claimSpanRate, hb, List.filterMap_cons]
    | some d =>
      have hd : (loadingUnwrap d).isSome = true := by
        have hall := hs.2
        rw [hb] at hall
        simpa [Option.all] using hall
      obtain ⟨p, hp⟩ := Option.isSome_iff_exists.mp hd
      have htm : loadingTiming s = .ok (some ((p.len : ℚ) / s.seconds)) := by
        rw [loadingTiming, hb]
        simp [hp, if_neg hsec]
      rw [loadingEmitted, htm]
      simp [hrest, claimSpanRate, hb, hp, List.filterMap_cons, Except.map]

theorem computeEmitted_eq (spans : List Span)
    (h : ∀ s ∈ spans, spanOk s = true) :
    computeEmitted spans =
      .ok (spans.filterMap (claimSpanRate computeUnwrap)) := by
  induction spans with
  | nil => rfl
  | cons s rest ih =>
    have hs : spanOk s = true := h s (List.mem_cons_self s rest)
    have hrest := ih (fun x hx => h x (List.mem_cons_of_mem s hx))
    rw [spanOk, Bool.and_eq_true] at hs
    have hlt : s.t0 < s.t1 := of_decide_eq_true hs.1
    have hsec := seconds_ne_zero_of_lt hlt
    cases hb : s.batch with
    | none =>
      rw [computeEmitted, computeTiming, hb, hrest]
      simp [claimSpanRate, hb, List.filterMap_cons]
    | some d =>
      have hd : (loadingUnwrap d).isSome = true := by
        have hall := hs.2
        rw [hb] at hall
        simpa [Option.all] using hall
      obtain ⟨p, hp⟩ :=
        Option.isSome_iff_exists.mp (computeUnwrap_isSome_of d hd)
      have htm : computeTiming s = .ok (some ((p.len : ℚ) / s.seconds)) := by
        rw [computeTiming, hb]
        simp [hp, if_neg hsec]
      rw [computeEmitted, htm]
      simp [hrest, claimSpanRate, hb, hp, List.filterMap_cons, Except.map]

/-- Claim C6: over any list of measured spans with positive elapsed time and
non-empty batch payloads, the published `loading_rate` and `compute_rate`
streams are exactly `throttle(1s)` of `scanning-average(window=5)` of the
per-span rates, where each span with a batch payload contributes
`len(payload) / elapsed-seconds` (after the instrument's unwrapping) and a
span without a batch key contributes nothing. -/
theorem span_rate_pipeline (spans : List Span)
    (h : ∀ s ∈ spans, spanOk s = true) :
    loadingPublished spans =
      .ok (throttleTimed 1 (scanAverageTimed 5
        (spans.filterMap (claimSpanRate loadingUnwrap)))) ∧
    computePublished spans =
      .ok (throttleTimed 1 (scanAverageTimed 5
        (spans.filterMap (claimSpanRate computeUnwrap)))) ∧
    (∀ s : Span, s.batch = none →
      loadingTiming s = .ok none ∧ computeTiming s = .ok none) := by
  refine ⟨?_, ?_, ?_⟩
  · rw [loadingPublished, loadingEmitted_eq spans h]
    rfl
  · rw [computePublished, computeEmitted_eq spans h]
    rfl
  · intro s hs
    constructor
    · rw [loadingTiming, hs]
    · rw [computeTiming, hs]

/-- Witness for C6: one span of exactly one second carrying a batch of 8
items followed by a span without a batch key publishes the single smoothed
rate 8 items/s on both instruments. -/
theorem span_rate_pipeline_witness :
    loadingPublished
      [⟨0, 1000000000, some (.pytensor 8)⟩, ⟨1000000000, 1500000000, none⟩] =
      .ok [((1 : ℚ), (8 : ℚ))] ∧
    computePublished
      [⟨0, 1000000000, some (.pytensor 8)⟩, ⟨1000000000, 1500000000, none⟩] =
      .ok [((1 : ℚ), (8 : ℚ))] := by
  have h := span_rate_pipeline
    [⟨0, 1000000000, some (.pytensor 8)⟩, ⟨1000000000, 1500000000, none⟩]
    (by decide)
  refine ⟨?_, ?_⟩
  · rw [h.1]
    norm_num [claimSpanRate, loadingUnwrap, Span.seconds, PyVal.len,
      List.filterMap_cons, scanAverageTimed, List.enum, List.enumFrom,
      lastWindow, listMean, throttleTimed, throttleGo]
  · rw [h.2.1]
    norm_num [claimSpanRate, computeUnwrap, Span.seconds, PyVal.len,
      List.filterMap_cons, scanAverageTimed, List.enum, List.enumFrom,
      lastWindow, listMean, throttleTimed, throttleGo]

/-- Claim C7: an interleaving of the polling loop and `stop()` in which
`stop()` is called (and returns) between the loop's flag check and the
`give` call: the monitor publishes a GPU sample after `stop()` has returned,
because `stop()` only sets the flag and performs no join. -/
theorem stop_without_join_publishes_after_return :
    (runSchedule [.monitor, .main, .monitor]).stopReturned = true ∧
    (runSchedule [.monitor, .main, .monitor]).publishedAfterStop = 1 :=
  ⟨rfl, rfl⟩

/-- Claim C8: the monitor started by `profile_gpu` passes 100 to
`time.sleep`, which waits 100 seconds — an interval of 100000 milliseconds
between polls, not the claimed 100 milliseconds. -/
theorem monitor_interval_not_100ms :
    monitorPollIntervalMs = 100000 ∧ monitorPollIntervalMs ≠ 100 :=
  ⟨rfl, by decide⟩

/-- Claim C9: for a loader whose `__iter__` is not a generator function and
whose iterator type has no `next` attribute, the subscriber takes the error
branch: it logs the failure, installs no probe (so nothing is ever
published), and — being a total function — raises nothing to the host. -/
theorem loading_rate_unsupported_loader_inert (shape : LoaderShape)
    (hgen : shape.iterIsGeneratorFunction = false)
    (hnext : shape.iterTypeHasNext = false) :
    loadingRateSetup shape = .inertLogged ∧
    (loadingRateSetup shape).installsProbe = false ∧
    (loadingRateSetup shape).logsError = true := by
  have h : loadingRateSetup shape = .inertLogged := by
    simp [loadingRateSetup, hgen, hnext]
  refine ⟨h, ?_, ?_⟩
  · rw [h]
    rfl
  · rw [h]
    rfl

/-- Witness for C9 at the concrete unrecognized loader shape. -/
theorem loading_rate_unsupported_loader_inert_witness :
    loadingRateSetup ⟨false, false⟩ = .inertLogged ∧
    (loadingRateSetup ⟨false, false⟩).installsProbe = false ∧
    (loadingRateSetup ⟨false, false⟩).logsError = true :=
  loading_rate_unsupported_loader_inert ⟨false, false⟩ rfl rfl

/-- Claim C10: for a span whose batch is a tuple, `loading_rate` unwraps the
tuple to its first element while `compute_rate` measures the tuple itself,
so whenever the tuple's length differs from its first component's length the
two instruments derive different per-span rates from the same payload. -/
theorem tuple_batch_rate_divergence (s : Span) (hd : PyVal) (rest : List PyVal)
    (hb : s.batch = some (.pytuple (hd :: rest)))
    (ht : s.t0 < s.t1) :
    loadingTiming s = .ok (some ((hd.len : ℚ) / s.seconds)) ∧
    computeTiming s = .ok (some (((rest.length + 1 : Nat) : ℚ) / s.seconds)) ∧
    (hd.len ≠ rest.length + 1 → loadingTiming s ≠ computeTiming s) := by
  have hsec := seconds_ne_zero_of_lt ht
  have hl : loadingTiming s = .ok (some ((hd.len : ℚ) / s.seconds)) := by
    rw [loadingTiming, hb]
    simp [loadingUnwrap, if_neg hsec]
  have hc : computeTiming s =
      .ok (some (((rest.length + 1 : Nat) : ℚ) / s.seconds)) := by
    rw [computeTiming, hb]
    simp [computeUnwrap, PyVal.len, if_neg hsec]
  refine ⟨hl, hc, ?_⟩
  intro hne heq
  rw [hl, hc] at heq
  have heq2 : (hd.len : ℚ) / s.seconds = ((rest.length + 1 : Nat) : ℚ) / s.seconds := by
    have h1 := Except.ok.inj heq
    exact Option.some.inj h1
  have heq3 : (hd.len : ℚ) = ((rest.length + 1 : Nat) : ℚ) :=
    (div_left_inj' hsec).mp heq2
  exact hne (by exact_mod_cast heq3)

/-- Witness for C10: the tuple `(tensor-of-4, tensor-of-4)` over a one-second
span gives `loading_rate` 4 items/s (length of the first element) but
`compute_rate` 2 items/s (length of the tuple), which differ. -/
theorem tuple_batch_rate_divergence_witness :
    loadingTiming ⟨0, 1000000000, some (.pytuple [.pytensor 4, .pytensor 4])⟩ =
      .ok (some (4 : ℚ)) ∧
    computeTiming ⟨0, 1000000000, some (.pytuple [.pytensor 4, .pytensor 4])⟩ =
      .ok (some (2 : ℚ)) ∧
    loadingTiming ⟨0, 1000000000, some (.pytuple [.pytensor 4, .pytensor 4])⟩ ≠
      computeTiming ⟨0, 1000000000, some (.pytuple [.pytensor 4, .pytensor 4])⟩ := by
  have h := tuple_batch_rate_divergence
    ⟨0, 1000000000, some (.pytuple [.pytensor 4, .pytensor 4])⟩
    (.pytensor 4) [.pytensor 4] rfl (by decide)
  refine ⟨?_, ?_, h.2.2 (by decide)⟩
  · rw [h.1]
    norm_num [Span.seconds, PyVal.len]
  · rw [h.2.1]
    norm_num [Span.seconds]

end Milabench
